import Mathlib

/-!
Verification of the `create-pywire-app` project scaffolding tool.

This file shallowly embeds the generator in `src/create_pywire_app/main.py`:

* `ProjectGenerator` mirrors the Python class of the same name; its
  generation methods (`_generate_pyproject`, `_generate_skeleton`, ...) are
  embedded as small step lists (`planPyproject`, `planSkeleton`, ...), and
  `generate` executes the concatenated plan in order against a template
  catalog, short-circuiting on a missing template exactly as the uncaught
  Jinja2 / file-read exceptions do in the Python code.
* File contents produced by template rendering are tracked symbolically as
  the template identifier plus the render context (the template engine is an
  external collaborator); verbatim copies additionally get a filesystem-level
  model (`copyStatic`) to state the round-trip property.
* The interaction-flow pieces of `main()` (version resolution, git
  initialization, `uv sync`, the prompt defaults, the final instruction
  panel) are embedded as pure functions over the possible subprocess and
  environment outcomes.
-/

namespace CreatePywireApp

/-- The four project kinds offered by the tool (`template` in the source). -/
inductive Kind where
  | skeleton
  | counter
  | blog
  | saas
deriving DecidableEq

/-- The two routing strategies (`routing_strategy` values "path" / "explicit"). -/
inductive Routing where
  | path
  | explicit
deriving DecidableEq

/-- The string value the source stores for a routing strategy. -/
def routingStr : Routing → String
  | .path => "path"
  | .explicit => "explicit"

/-- A filesystem path, as a list of segments relative to the project root. -/
abbrev FsPath := List String

/-- Values placed in a Jinja2 render context by the generator: plain strings,
string lists (the dependency list) and the optional deploy-config record. -/
inductive CtxVal where
  | str (v : String)
  | strList (vs : List String)
  | optRecord (r : Option (List (String × String)))
deriving DecidableEq

/-- The content written to a file: either the rendering of a named template
with a context (content symbolic, the engine is external), or a verbatim
copy of a named static template. -/
inductive FileData where
  | rendered (tpl : String) (ctx : List (String × CtxVal))
  | copied (tpl : String)
deriving DecidableEq

/-- One filesystem effect of generation. -/
inductive FsOp where
  | mkdir (p : FsPath)
  | write (p : FsPath) (data : FileData)
deriving DecidableEq

/-- One action of the generator before touching the catalog: create a
directory, render a template to a destination, or copy a static template. -/
inductive Step where
  | mkdirStep (p : FsPath)
  | renderStep (tpl : String) (ctx : List (String × CtxVal)) (dest : FsPath)
  | copyStep (tpl : String) (dest : FsPath)
deriving DecidableEq

/-- The adapter choice string for Docker, as in `main.py`. -/
def dockerChoice : String := "Docker (Dockerfile)"

/-- The adapter choice string for Render, as in `main.py`. -/
def renderChoice : String := "Render (render.yaml)"

/-- Mirror of the Python `ProjectGenerator` constructor state
(`main.py` lines 115-135). -/
structure ProjectGenerator where
  projectName : String
  template : Kind
  routingStrategy : Routing
  useSrc : Bool
  adapters : List String
  pywireDep : String
deriving DecidableEq

/-- `self.app_root = project_path / "src" if use_src else project_path`
(`main.py` line 134), as a path relative to the project root. -/
def ProjectGenerator.appRoot (g : ProjectGenerator) : FsPath :=
  if g.useSrc then ["src"] else []

/-- `self.pages_dir = self.app_root / "pages"` (`main.py` line 135). -/
def ProjectGenerator.pagesDir (g : ProjectGenerator) : FsPath :=
  g.appRoot ++ ["pages"]

/-- `ProjectGenerator.get_dependencies` (`main.py` lines 137-146): the core
dependency followed by kind-specific extras. -/
def ProjectGenerator.getDependencies (g : ProjectGenerator) : List String :=
  [g.pywireDep]
    ++ (if g.template = .blog then ["markdown>=3.6"] else [])
    ++ (if g.template = .saas then ["stripe>=7.0.0", "sqlalchemy>=2.0.0"] else [])

/-- `ProjectGenerator.get_template_description` (`main.py` lines 148-156). -/
def ProjectGenerator.getTemplateDescription (g : ProjectGenerator) : String :=
  match g.template with
  | .skeleton => "A blank slate with only a single page."
  | .counter => "A minimal counter app demonstrating interactivity."
  | .blog => "A blog and portfolio starter with Markdown content stored in SQLite."
  | .saas => "A SaaS starter with Stripe, SQLAlchemy models, and stubbed auth."

/-- `ProjectGenerator.get_deploy_config` (`main.py` lines 158-164): Docker
first, then Render, else `None`. -/
def ProjectGenerator.getDeployConfig (g : ProjectGenerator) :
    Option (List (String × String)) :=
  if dockerChoice ∈ g.adapters then some [("adapter", "docker")]
  else if renderChoice ∈ g.adapters then some [("adapter", "render")]
  else none

/-- `_generate_pyproject` (`main.py` lines 202-210). -/
def planPyproject (g : ProjectGenerator) : List Step :=
  [.renderStep "common/pyproject.toml.j2"
    [("project_name", .str g.projectName),
     ("dependencies", .strList g.getDependencies),
     ("deploy_config", .optRecord g.getDeployConfig)]
    ["pyproject.toml"]]

/-- `_generate_readme` (`main.py` lines 212-221). -/
def planReadme (g : ProjectGenerator) : List Step :=
  [.renderStep "common/README.md.j2"
    [("project_name", .str g.projectName),
     ("template_description", .str g.getTemplateDescription),
     ("routing_style",
       .str (if g.routingStrategy = .path then "Path-based" else "Explicit"))]
    ["README.md"]]

/-- `_generate_gitignore` (`main.py` lines 223-225). -/
def planGitignore (_g : ProjectGenerator) : List Step :=
  [.copyStep "common/.gitignore" [".gitignore"]]

/-- `_generate_vscode_settings` (`main.py` lines 227-233). -/
def planVscode (_g : ProjectGenerator) : List Step :=
  [.mkdirStep [".vscode"],
   .copyStep "common/extensions.json" [".vscode", "extensions.json"]]

/-- `_generate_main` (`main.py` lines 235-246). -/
def planMain (g : ProjectGenerator) : List Step :=
  [.renderStep
    (if g.routingStrategy = .path then "common/main-path.py.j2"
     else "common/main-explicit.py.j2")
    [("pages_dir", .str (if g.useSrc then "src/pages" else "pages"))]
    (g.appRoot ++ ["main.py"])]

/-- `_generate_error_page` (`main.py` lines 248-252). -/
def planErrorPage (g : ProjectGenerator) : List Step :=
  [.copyStep "common/__error__.wire" (g.pagesDir ++ ["__error__.wire"])]

/-- `_generate_skeleton` (`main.py` lines 193-200). -/
def planSkeleton (g : ProjectGenerator) : List Step :=
  [.renderStep "skeleton/index.wire.j2"
    [("project_name", .str g.projectName),
     ("routing", .str (routingStr g.routingStrategy))]
    (g.pagesDir ++ ["index.wire"])]

/-- `_generate_counter` (`main.py` lines 254-274). -/
def planCounter (g : ProjectGenerator) : List Step :=
  if g.routingStrategy = .path then
    [.renderStep "counter/path-based/__layout__.wire.j2"
      [("project_name", .str g.projectName)] (g.pagesDir ++ ["__layout__.wire"]),
     .copyStep "counter/path-based/index.wire" (g.pagesDir ++ ["index.wire"])]
  else
    [.renderStep "counter/explicit/layout.wire.j2"
      [("project_name", .str g.projectName)] (g.pagesDir ++ ["layout.wire"]),
     .copyStep "counter/explicit/home.wire" (g.pagesDir ++ ["home.wire"])]

/-- `_generate_blog` (`main.py` lines 276-329). -/
def planBlog (g : ProjectGenerator) : List Step :=
  [.mkdirStep (g.appRoot ++ ["data"])]
    ++ (if g.routingStrategy = .path then
      [.mkdirStep (g.pagesDir ++ ["posts"]),
       .renderStep "blog/path-based/__layout__.wire.j2"
         [("project_name", .str g.projectName)]
         (g.pagesDir ++ ["__layout__.wire"]),
       .renderStep "blog/path-based/posts__layout__.wire.j2"
         [("project_name", .str g.projectName)]
         (g.pagesDir ++ ["posts", "__layout__.wire"]),
       .copyStep "blog/path-based/index.wire" (g.pagesDir ++ ["index.wire"]),
       .copyStep "blog/path-based/posts_index.wire"
         (g.pagesDir ++ ["posts", "index.wire"]),
       .copyStep "blog/path-based/posts_slug.wire"
         (g.pagesDir ++ ["posts", "[slug].wire"])]
    else
      [.renderStep "blog/explicit/layout.wire.j2"
         [("project_name", .str g.projectName)]
         (g.pagesDir ++ ["layout.wire"]),
       .copyStep "blog/explicit/home.wire" (g.pagesDir ++ ["home.wire"]),
       .copyStep "blog/explicit/blog-posts.wire"
         (g.pagesDir ++ ["blog-posts.wire"]),
       .copyStep "blog/explicit/about.wire" (g.pagesDir ++ ["about.wire"])])

/-- `_generate_saas` (`main.py` lines 331-399). -/
def planSaas (g : ProjectGenerator) : List Step :=
  [.copyStep "saas/models.py" (g.appRoot ++ ["models.py"])]
    ++ (if g.routingStrategy = .path then
      [.mkdirStep (g.pagesDir ++ ["dashboard"]),
       .renderStep "saas/path-based/__layout__.wire.j2"
         [("project_name", .str g.projectName)]
         (g.pagesDir ++ ["__layout__.wire"]),
       .renderStep "saas/path-based/dashboard__layout__.wire.j2"
         [("project_name", .str g.projectName)]
         (g.pagesDir ++ ["dashboard", "__layout__.wire"]),
       .copyStep "saas/path-based/index.wire" (g.pagesDir ++ ["index.wire"]),
       .copyStep "saas/path-based/pricing.wire" (g.pagesDir ++ ["pricing.wire"]),
       .copyStep "saas/path-based/login.wire" (g.pagesDir ++ ["login.wire"]),
       .copyStep "saas/path-based/dashboard_index.wire"
         (g.pagesDir ++ ["dashboard", "index.wire"]),
       .copyStep "saas/path-based/dashboard_settings.wire"
         (g.pagesDir ++ ["dashboard", "settings.wire"])]
    else
      [.renderStep "saas/explicit/public-layout.wire.j2"
         [("project_name", .str g.projectName)]
         (g.pagesDir ++ ["public-layout.wire"]),
       .renderStep "saas/explicit/auth-layout.wire.j2"
         [("project_name", .str g.projectName)]
         (g.pagesDir ++ ["auth-layout.wire"]),
       .copyStep "saas/explicit/landing.wire" (g.pagesDir ++ ["landing.wire"]),
       .copyStep "saas/explicit/pricing.wire" (g.pagesDir ++ ["pricing.wire"]),
       .copyStep "saas/explicit/login.wire" (g.pagesDir ++ ["login.wire"]),
       .copyStep "saas/explicit/dashboard-pages.wire"
         (g.pagesDir ++ ["dashboard-pages.wire"])])

/-- `_generate_adapters` (`main.py` lines 401-411). -/
def planAdapters (g : ProjectGenerator) : List Step :=
  (if dockerChoice ∈ g.adapters then
    [Step.copyStep "common/Dockerfile" ["Dockerfile"]]
  else [])
    ++ (if renderChoice ∈ g.adapters then
      [Step.renderStep "common/render.yaml.j2"
        [("project_name", .str g.projectName)] ["render.yaml"]]
    else [])

/-- `ProjectGenerator.generate` (`main.py` lines 166-191) as the ordered list
of actions it performs: the three root `mkdir`s, the six base files, the
kind-specific files (the Python source has one `if` per kind on the same
field, so exactly one branch fires), then the deployment adapters. -/
def ProjectGenerator.plan (g : ProjectGenerator) : List Step :=
  [Step.mkdirStep [], Step.mkdirStep g.appRoot, Step.mkdirStep g.pagesDir]
    ++ planPyproject g ++ planReadme g ++ planGitignore g ++ planMain g
    ++ planErrorPage g ++ planVscode g
    ++ (if g.template = .skeleton then planSkeleton g else [])
    ++ (if g.template = .counter then planCounter g else [])
    ++ (if g.template = .blog then planBlog g else [])
    ++ (if g.template = .saas then planSaas g else [])
    ++ planAdapters g

/-- The template catalog: which template identifiers exist on disk, and with
what (text) content. -/
abbrev Catalog := String → Option String

/-- Execute one step against the catalog.  A `renderStep` whose template
identifier is missing fails like Jinja2's `TemplateNotFound`; a `copyStep`
whose source file is missing fails like the `FileNotFoundError` raised by
`source.read_text()`.  Neither exception is caught anywhere in
`ProjectGenerator`. -/
def runStep (cat : Catalog) : Step → Except String FsOp
  | .mkdirStep p => .ok (.mkdir p)
  | .renderStep tpl ctx dest =>
    match cat tpl with
    | none => .error ("TemplateNotFound: " ++ tpl)
    | some _ => .ok (.write dest (.rendered tpl ctx))
  | .copyStep tpl dest =>
    match cat tpl with
    | none => .error ("FileNotFoundError: " ++ tpl)
    | some _ => .ok (.write dest (.copied tpl))

/-- Run steps in order, stopping at the first failure (the Python methods
run sequentially and no exception is caught inside `generate`). -/
def seqSteps (cat : Catalog) : List Step → Except String (List FsOp)
  | [] => .ok []
  | s :: rest =>
    match runStep cat s with
    | .error e => .error e
    | .ok op =>
      match seqSteps cat rest with
      | .error e => .error e
      | .ok ops => .ok (op :: ops)

/-- `ProjectGenerator.generate` run against a catalog. -/
def generate (cat : Catalog) (g : ProjectGenerator) : Except String (List FsOp) :=
  seqSteps cat g.plan

/-- Whether an `Except` result is a success. -/
def isOkB {ε α : Type} : Except ε α → Bool
  | .ok _ => true
  | .error _ => false

/-- The successful result of generation (empty list when generation failed). -/
def generatedOps (cat : Catalog) (g : ProjectGenerator) : List FsOp :=
  match generate cat g with
  | .ok ops => ops
  | .error _ => []

/-- Paths of all files written by a list of operations. -/
def writesOf (ops : List FsOp) : List FsPath :=
  ops.filterMap fun op =>
    match op with
    | .write p _ => some p
    | .mkdir _ => none

/-- Paths of all directories created by a list of operations. -/
def mkdirsOf (ops : List FsOp) : List FsPath :=
  ops.filterMap fun op =>
    match op with
    | .mkdir p => some p
    | .write _ _ => none

/-- Two path lists with the same elements (order and multiplicity ignored). -/
def sameSet (l1 l2 : List FsPath) : Bool :=
  l1.all (l2.contains ·) && l2.all (l1.contains ·)

/-- A catalog on which every template exists (the shipped package contains
every template the generator references). -/
def fullCat : Catalog := fun _ => some ""

/-- Build the `ProjectGenerator` for a request, with the adapter list that the
checkbox prompt produces for the given selections. -/
def mkGen (name dep : String) (k : Kind) (r : Routing) (s docker rend : Bool) :
    ProjectGenerator :=
  { projectName := name
    template := k
    routingStrategy := r
    useSrc := s
    adapters :=
      (if docker then [dockerChoice] else []) ++ (if rend then [renderChoice] else [])
    pywireDep := dep }

/-- Spec-side definition, following the words of spec §4.2 / §6 / §8: the base
artifact files every combination must produce — dependency manifest, README,
ignore file, editor-configuration stub, entry-point program at the app root,
and the error page under the pages root. -/
def spec42BaseFiles (appRoot pages : FsPath) : List FsPath :=
  [["pyproject.toml"], ["README.md"], [".gitignore"], [".vscode", "extensions.json"],
   appRoot ++ ["main.py"], pages ++ ["__error__.wire"]]

/-- Spec-side definition, following spec §4.2's fixed per-(kind, routing)
artifact lists (file names taken from the static asset catalog, which the
spec treats as pure data): skeleton has a single page; counter a layout and a
page; blog its layouts and pages with, under path routing, the nested `posts`
directory holding a layout, an index and a dynamic slug page; saas its data
model file at the app root plus its layouts and pages with, under path
routing, the nested `dashboard` directory holding a layout and two pages. -/
def spec42KindFiles (k : Kind) (r : Routing) (appRoot pages : FsPath) :
    List FsPath :=
  match k, r with
  | .skeleton, _ => [pages ++ ["index.wire"]]
  | .counter, .path =>
    [pages ++ ["__layout__.wire"], pages ++ ["index.wire"]]
  | .counter, .explicit =>
    [pages ++ ["layout.wire"], pages ++ ["home.wire"]]
  | .blog, .path =>
    [pages ++ ["__layout__.wire"], pages ++ ["posts", "__layout__.wire"],
     pages ++ ["index.wire"], pages ++ ["posts", "index.wire"],
     pages ++ ["posts", "[slug].wire"]]
  | .blog, .explicit =>
    [pages ++ ["layout.wire"], pages ++ ["home.wire"],
     pages ++ ["blog-posts.wire"], pages ++ ["about.wire"]]
  | .saas, .path =>
    [appRoot ++ ["models.py"],
     pages ++ ["__layout__.wire"], pages ++ ["dashboard", "__layout__.wire"],
     pages ++ ["index.wire"], pages ++ ["pricing.wire"], pages ++ ["login.wire"],
     pages ++ ["dashboard", "index.wire"], pages ++ ["dashboard", "settings.wire"]]
  | .saas, .explicit =>
    [appRoot ++ ["models.py"],
     pages ++ ["public-layout.wire"], pages ++ ["auth-layout.wire"],
     pages ++ ["landing.wire"], pages ++ ["pricing.wire"], pages ++ ["login.wire"],
     pages ++ ["dashboard-pages.wire"]]

/-- Spec-side definition, following spec §4.2: the container build file and
the platform manifest are independent add-ons at the project root. -/
def spec42AdapterFiles (docker rend : Bool) : List FsPath :=
  (if docker then [["Dockerfile"]] else []) ++ (if rend then [["render.yaml"]] else [])

/-- Spec-side definition: the full §4.2 artifact file set for one
(kind, routing, layout, adapters) combination. -/
def spec42Files (k : Kind) (r : Routing) (s docker rend : Bool) : List FsPath :=
  spec42BaseFiles (if s then ["src"] else []) ((if s then ["src"] else []) ++ ["pages"])
    ++ spec42KindFiles k r (if s then ["src"] else [])
      ((if s then ["src"] else []) ++ ["pages"])
    ++ spec42AdapterFiles docker rend

/-- Spec-side definition, following spec §4.2: the directories a combination
creates — project root, app root, pages root, the editor-configuration
directory, blog's `data` directory, and the nested `posts` / `dashboard`
directories under path routing. -/
def spec42Dirs (k : Kind) (r : Routing) (s : Bool) : List FsPath :=
  [[], (if s then ["src"] else []), (if s then ["src"] else []) ++ ["pages"],
   [".vscode"]]
    ++ (if k = .blog then [(if s then ["src"] else []) ++ ["data"]] else [])
    ++ (if k = .blog ∧ r = .path then
      [(if s then ["src"] else []) ++ ["pages", "posts"]] else [])
    ++ (if k = .saas ∧ r = .path then
      [(if s then ["src"] else []) ++ ["pages", "dashboard"]] else [])

/-- The generator built for the default interactive request values
(destination `./my-pywire-app`, unpinned dependency) at a given combination;
the project name and dependency specifier flow only into render contexts,
never into artifact paths. -/
def genAt (k : Kind) (r : Routing) (s docker rend : Bool) : ProjectGenerator :=
  mkGen "my-pywire-app" "pywire" k r s docker rend

/-- Claim C1: for every project kind, routing strategy and layout choice (and
every adapter selection), generation succeeds and creates the project root,
the app root (`src` under the project root exactly when the nested-source
layout is chosen) and the pages root (`app_root/pages`), the set of created
directories is exactly the §4.2 directory set, and the set of files written
is exactly the §4.2 artifact set for that combination — so every required
base and kind-specific file is present at its computed path and no
kind-specific file of any other kind is written. -/
theorem generate_writes_exactly_spec42 (k : Kind)
    (r : Routing) (s docker rend : Bool) :
    isOkB (generate fullCat (genAt k r s docker rend)) = true
      ∧ (mkdirsOf (generatedOps fullCat (genAt k r s docker rend))).contains
          [] = true
      ∧ (mkdirsOf (generatedOps fullCat (genAt k r s docker rend))).contains
          (if s then ["src"] else []) = true
      ∧ (mkdirsOf (generatedOps fullCat (genAt k r s docker rend))).contains
          ((if s then ["src"] else []) ++ ["pages"]) = true
      ∧ sameSet (mkdirsOf (generatedOps fullCat (genAt k r s docker rend)))
          (spec42Dirs k r s) = true
      ∧ sameSet (writesOf (generatedOps fullCat (genAt k r s docker rend)))
          (spec42Files k r s docker rend) = true := by
  cases k <;> cases r <;> cases s <;> cases docker <;> cases rend <;> decide

/-- The three ways `main()` chooses the core dependency specifier
(`main.py` lines 437-475): the `USE_LOCAL_PYWIRE=1` override, an explicit
`--pywire-version` pin, or the default "latest". -/
inductive DepMode where
  | useLocal
  | pinned (v : String)
  | latest
deriving DecidableEq

/-- The dependency specifier `main()` passes to the generator for each mode
(`main.py` lines 441, 471, 474). -/
def pywireDepOf : DepMode → String
  | .useLocal => "pywire @ /Users/rholmdahl/projects/pywire-workspace/pywire"
  | .pinned v => "pywire==" ++ v
  | .latest => "pywire"

/-- Spec-side definition, following the words of spec §4.2: the kind-specific
extra dependencies — blog adds a Markdown-processing dependency, saas adds a
payments SDK dependency and an ORM dependency, the other kinds add nothing. -/
def specKindExtras : Kind → List String
  | .blog => ["markdown>=3.6"]
  | .saas => ["stripe>=7.0.0", "sqlalchemy>=2.0.0"]
  | _ => []

/-- Every dependency specifier `main()` can produce starts with the character
`p`, so it can never collide with one of the kind-specific extras. -/
theorem pywireDepOf_head (m : DepMode) : (pywireDepOf m).data.head? = some 'p' := by
  cases m with
  | pinned v =>
    obtain ⟨l⟩ := v
    rfl
  | useLocal => rfl
  | latest => rfl

/-- A string whose first character is not `p` differs from every dependency
specifier `main()` produces. -/
theorem pywireDepOf_ne (m : DepMode) (t : String)
    (h : t.data.head? ≠ some 'p') : pywireDepOf m ≠ t := by
  intro he
  exact h (he ▸ pywireDepOf_head m)

/-- Claim C2: for every dependency mode and kind, the dependency list written
into the manifest is exactly the core framework specifier followed by the
kind-specific extras (blog: the Markdown dependency; saas: the payments SDK
and the ORM dependency; others: nothing), order-preserving and without
duplicates. -/
theorem getDependencies_core_then_extras (m : DepMode) (g : ProjectGenerator)
    (hdep : g.pywireDep = pywireDepOf m) :
    g.getDependencies = pywireDepOf m :: specKindExtras g.template
      ∧ g.getDependencies.Nodup := by
  have heq : g.getDependencies = pywireDepOf m :: specKindExtras g.template := by
    cases hk : g.template <;>
      simp [ProjectGenerator.getDependencies, specKindExtras, hdep, hk]
  refine ⟨heq, ?_⟩
  rw [heq]
  cases g.template
  · simp [specKindExtras]
  · simp [specKindExtras]
  · refine List.nodup_cons.mpr ⟨?_, by decide⟩
    intro hmem
    have hcase : pywireDepOf m = "markdown>=3.6" := by
      simpa [specKindExtras] using hmem
    exact pywireDepOf_ne m "markdown>=3.6" (by decide) hcase
  · refine List.nodup_cons.mpr ⟨?_, by decide⟩
    intro hmem
    have hcase : pywireDepOf m = "stripe>=7.0.0" ∨ pywireDepOf m = "sqlalchemy>=2.0.0" := by
      simpa [specKindExtras] using hmem
    rcases hcase with h | h
    · exact pywireDepOf_ne m "stripe>=7.0.0" (by decide) h
    · exact pywireDepOf_ne m "sqlalchemy>=2.0.0" (by decide) h

/-- Witness for C2 at a concrete input: the saas kind with a pinned version. -/
theorem getDependencies_core_then_extras_witness :
    ({ projectName := "w", template := Kind.saas, routingStrategy := Routing.path,
       useSrc := true, adapters := [], pywireDep := "pywire==0.1.4" }
        : ProjectGenerator).getDependencies
      = pywireDepOf (DepMode.pinned "0.1.4")
          :: specKindExtras Kind.saas
      ∧ ({ projectName := "w", template := Kind.saas, routingStrategy := Routing.path,
           useSrc := true, adapters := [], pywireDep := "pywire==0.1.4" }
            : ProjectGenerator).getDependencies.Nodup :=
  getDependencies_core_then_extras (DepMode.pinned "0.1.4") _ rfl

/-- The possible outcomes of the `uv pip compile` subprocess run inside
`resolve_pywire_version` (`main.py` lines 61-84): success with captured
standard output, a non-zero exit (`CalledProcessError`), expiry of the
10-second bound (`TimeoutExpired`), or the tool being absent
(`FileNotFoundError`). -/
inductive RunResult where
  | success (stdout : String)
  | exitNonzero
  | timedOut
  | toolMissing
deriving DecidableEq

/-- The characters of the literal part of the pattern searched for in the
resolver output (`pywire==` in `re.search(r"pywire==([^\s]+)", ...)`). -/
def pywireEqMarker : List Char := ['p', 'y', 'w', 'i', 'r', 'e', '=', '=']

/-- Model of `re.search(r"pywire==([^\s]+)", out)`: scan left to right for
the literal marker followed by at least one non-whitespace character, and
return the maximal non-whitespace run after the marker. -/
def extractAfterMarker : List Char → Option String
  | [] => none
  | c :: rest =>
    if pywireEqMarker.isPrefixOf (c :: rest) then
      let ver := ((c :: rest).drop 8).takeWhile (fun ch => !ch.isWhitespace)
      if ver.isEmpty then extractAfterMarker rest else some (String.mk ver)
    else extractAfterMarker rest

/-- `resolve_pywire_version` (`main.py` lines 48-86): local-path specifiers
(containing `@`) are not resolved; every subprocess failure — non-zero exit,
timeout, tool not found — is caught by the `except` clause and turned into
`None`; on success the version is extracted from the output if present. -/
def resolvePywireVersion (pywireDep : String) (run : RunResult) : Option String :=
  if pywireDep.contains '@' then none
  else
    match run with
    | .success out => extractAfterMarker out.data
    | .exitNonzero => none
    | .timedOut => none
    | .toolMissing => none

/-- The display update at the call site (`main.py` lines 480-482):
`if resolved_version: pywire_version_display = resolved_version` — `None`
and the empty string (Python falsiness) both keep the current label. -/
def displayAfterResolve (current : String) (resolved : Option String) : String :=
  match resolved with
  | some v => if v == "" then current else v
  | none => current

/-- Claim C7: for every dependency specifier, each failure of the
version-resolution query — non-zero resolver exit, resolver tool not found,
or expiry of the 10-second timeout — yields `none` (the model returns a
value rather than propagating an exception to the caller), and the displayed
version label falls back to `Latest`. -/
theorem resolvePywireVersion_failure_none (dep : String) (run : RunResult)
    (h : run = RunResult.exitNonzero ∨ run = RunResult.timedOut
      ∨ run = RunResult.toolMissing) :
    resolvePywireVersion dep run = none
      ∧ displayAfterResolve "Latest" (resolvePywireVersion dep run) = "Latest" := by
  rcases h with h | h | h <;> subst h <;>
    constructor <;> simp [resolvePywireVersion, displayAfterResolve]

/-- Witness for C7 at a concrete input: the timeout outcome on the plain
`pywire` specifier. -/
theorem resolvePywireVersion_failure_none_witness :
    resolvePywireVersion "pywire" RunResult.timedOut = none
      ∧ displayAfterResolve "Latest" (resolvePywireVersion "pywire" RunResult.timedOut)
        = "Latest" :=
  resolvePywireVersion_failure_none "pywire" RunResult.timedOut (Or.inr (Or.inl rfl))

/-- The dependency specifier hard-coded for the `USE_LOCAL_PYWIRE=1` override
(`main.py` line 441). -/
def localPywireDep : String := "pywire @ /Users/rholmdahl/projects/pywire-workspace/pywire"

/-- The display label computed in the local-override branch (`main.py` lines
453-462): the version regex-matched from the local `_version.py` suffixed
with `(Local)` when that file exists and matches, else the fallback
`Local (Source)`. -/
def localVersionLabel : Option String → String
  | some v => v ++ " (Local)"
  | none => "Local (Source)"

/-- The environment `main()` consults when choosing the dependency specifier
and version label (`main.py` lines 437-482): the `USE_LOCAL_PYWIRE` override,
the optional `--pywire-version` argument, the version string regex-matched
from the local checkout's `_version.py` (absent when the file does not exist
or does not match), and what the resolver subprocess would return if it were
invoked. -/
structure VersionEnv where
  useLocal : Bool
  argVersion : Option String
  localVersionMatch : Option String
  resolverResult : Option String
deriving DecidableEq

/-- The dependency specifier and pre-resolution display label
(`main.py` lines 440-475). -/
def initialDepDisplay (e : VersionEnv) : String × String :=
  if e.useLocal then (localPywireDep, localVersionLabel e.localVersionMatch)
  else
    match e.argVersion with
    | some v => ("pywire==" ++ v, v)
    | none => ("pywire", "Latest")

/-- Whether `main()` reaches the `resolve_pywire_version` call
(`main.py` line 478): only when the local override is off and the display
label is still `Latest`. -/
def resolverInvoked (e : VersionEnv) : Bool :=
  !e.useLocal && (initialDepDisplay e).2 == "Latest"

/-- The final display label after the optional resolution step
(`main.py` lines 477-482). -/
def finalDisplay (e : VersionEnv) : String :=
  if resolverInvoked e then
    displayAfterResolve (initialDepDisplay e).2 e.resolverResult
  else (initialDepDisplay e).2

/-- Counterexample to claim C3 as stated: with the local override active, the
displayed label is not fixed — it depends on the local checkout's
`_version.py`.  With no local version file the label is `Local (Source)`;
with a local version file matching `0.1.4` it is `0.1.4 (Local)`, a
different string. -/
theorem localDisplay_not_fixed :
    finalDisplay ⟨true, none, none, none⟩ = "Local (Source)"
      ∧ finalDisplay ⟨true, none, some "0.1.4", none⟩ = "0.1.4 (Local)"
      ∧ finalDisplay ⟨true, none, none, none⟩
        ≠ finalDisplay ⟨true, none, some "0.1.4", none⟩ := by
  refine ⟨rfl, rfl, ?_⟩
  decide

/-- Claim C3 (amended): whenever the local-framework override is active, the
dependency specifier is the hard-coded local filesystem reference, the
version-resolution subprocess is never invoked, and the displayed label is
derived only from the local checkout — the version found in the local
`_version.py` suffixed `(Local)`, or the fixed fallback `Local (Source)`
when none is found. -/
theorem useLocal_dep_and_display (e : VersionEnv) (h : e.useLocal = true) :
    (initialDepDisplay e).1 = localPywireDep
      ∧ resolverInvoked e = false
      ∧ finalDisplay e = localVersionLabel e.localVersionMatch := by
  refine ⟨?_, ?_, ?_⟩
  · simp [initialDepDisplay, h]
  · simp [resolverInvoked, h]
  · have hres : resolverInvoked e = false := by simp [resolverInvoked, h]
    simp [finalDisplay, hres, initialDepDisplay, h]

/-- Witness for the amended C3 at a concrete input: override active with a
local version file present. -/
theorem useLocal_dep_and_display_witness :
    (initialDepDisplay ⟨true, none, some "0.2.0", some "9.9.9"⟩).1 = localPywireDep
      ∧ resolverInvoked ⟨true, none, some "0.2.0", some "9.9.9"⟩ = false
      ∧ finalDisplay ⟨true, none, some "0.2.0", some "9.9.9"⟩
        = localVersionLabel (some "0.2.0") :=
  useLocal_dep_and_display _ rfl

/-- Outcome of running one external command: success, a non-zero exit with
captured standard error (`CalledProcessError`), or the tool being absent
(`FileNotFoundError`). -/
inductive CmdOutcome where
  | ok
  | exitFail (stderr : String)
  | notFound
deriving DecidableEq

/-- The outcomes the three version-control commands would have if run. -/
structure GitOutcomes where
  initRes : CmdOutcome
  addRes : CmdOutcome
  commitRes : CmdOutcome
deriving DecidableEq

/-- The warning lines printed when staging or committing raises
`CalledProcessError` (`main.py` lines 599-604): the fixed notice plus the
captured standard error when it is non-empty. -/
def commitSkippedWarnings (stderr : String) : List String :=
  ["! Git commit skipped (configure user.name/email to enable)."]
    ++ (if stderr == "" then [] else [stderr])

/-- The version-control initialization flow (`main.py` lines 570-606) as the
pair (commands actually run, warning lines printed).  `git init` runs first
inside its own `try`; any failure there is passed over silently and leaves
`git_initialized` false, so staging and committing are skipped.  When init
succeeded, `git add .` and `git commit` run inside one shared `try`: a
`CalledProcessError` from either (so a failed `add` prevents the commit) or
a `FileNotFoundError` prints a warning.  No outcome escapes the flow. -/
def gitFlow (o : GitOutcomes) : List String × List String :=
  match o.initRes with
  | .ok =>
    match o.addRes with
    | .ok =>
      match o.commitRes with
      | .ok => (["git init", "git add .", "git commit"], [])
      | .exitFail e => (["git init", "git add .", "git commit"], commitSkippedWarnings e)
      | .notFound =>
        (["git init", "git add .", "git commit"], ["! Git not found, skipping commit"])
    | .exitFail e => (["git init", "git add ."], commitSkippedWarnings e)
    | .notFound => (["git init", "git add ."], ["! Git not found, skipping commit"])
  | .exitFail _ => (["git init"], [])
  | .notFound => (["git init"], [])

/-- Counterexample to claim C4 as stated: when the version-control tool is
missing, `git init` fails, no warning at all is printed (the code passes
silently), and the staging and commit calls are never made — so the three
calls are neither independent nor each downgraded to a printed warning. -/
theorem gitFlow_init_failure_silent :
    gitFlow ⟨CmdOutcome.notFound, CmdOutcome.ok, CmdOutcome.ok⟩
      = (["git init"], []) := rfl

/-- Claim C4 (amended): the version-control flow never aborts generation and
runs the three commands dependently — `git init` is always attempted, its
failure is silently ignored (no warning) and skips staging and committing;
`git add .` runs only after a successful init; `git commit` runs only after a
successful init and a successful add; a staging or commit failure prints a
warning and leaves the partial repository state as-is. -/
theorem gitFlow_dependent_calls (o : GitOutcomes) :
    ("git init" ∈ (gitFlow o).1)
      ∧ ("git add ." ∈ (gitFlow o).1 ↔ o.initRes = CmdOutcome.ok)
      ∧ ("git commit" ∈ (gitFlow o).1
          ↔ o.initRes = CmdOutcome.ok ∧ o.addRes = CmdOutcome.ok)
      ∧ (o.initRes ≠ CmdOutcome.ok → (gitFlow o).2 = [])
      ∧ (o.initRes = CmdOutcome.ok → o.addRes ≠ CmdOutcome.ok → (gitFlow o).2 ≠ [])
      ∧ (o.initRes = CmdOutcome.ok → o.addRes = CmdOutcome.ok
          → o.commitRes ≠ CmdOutcome.ok → (gitFlow o).2 ≠ []) := by
  obtain ⟨i, a, c⟩ := o
  cases i <;> cases a <;> cases c <;>
    simp [gitFlow, commitSkippedWarnings]

/-- Witness for the amended C4 at a concrete input: init succeeded but
staging failed with captured error output. -/
theorem gitFlow_dependent_calls_witness :
    ("git init"
        ∈ (gitFlow ⟨CmdOutcome.ok, CmdOutcome.exitFail "boom", CmdOutcome.ok⟩).1)
      ∧ ("git commit"
            ∈ (gitFlow ⟨CmdOutcome.ok, CmdOutcome.exitFail "boom", CmdOutcome.ok⟩).1
          ↔ CmdOutcome.ok = CmdOutcome.ok
            ∧ CmdOutcome.exitFail "boom" = CmdOutcome.ok)
      ∧ (gitFlow ⟨CmdOutcome.ok, CmdOutcome.exitFail "boom", CmdOutcome.ok⟩).2 ≠ [] :=
  ⟨(gitFlow_dependent_calls _).1,
   (gitFlow_dependent_calls _).2.2.1,
   (gitFlow_dependent_calls
     ⟨CmdOutcome.ok, CmdOutcome.exitFail "boom", CmdOutcome.ok⟩).2.2.2.2.1
     rfl (by decide)⟩

/-- Outcome of the `uv sync` subprocess (`main.py` lines 611-633). -/
inductive SyncOutcome where
  | ok
  | exitFail (stderr : String)
  | notFound
deriving DecidableEq

/-- The lines printed for the dependency-sync step (`main.py` lines 619-633):
success prints the success line; a non-zero exit prints the failure line and
the captured standard error; a missing tool prints the skip warning. -/
def syncMessages : SyncOutcome → List String
  | .ok => ["OK Environment optimized"]
  | .exitFail e => ["X Failed to sync environment", e]
  | .notFound => ["! uv not found, skipping sync"]

/-- The `sync_success` flag (`main.py` lines 611, 628). -/
def syncSuccessFlag : SyncOutcome → Bool
  | .ok => true
  | _ => false

/-- The messages printed after generation succeeded: the file-creation
success line (`main.py` line 608) is printed before — and regardless of —
the dependency-sync outcome. -/
def postGenMessages (o : SyncOutcome) : List String :=
  ["OK Project structure created"] ++ syncMessages o

/-- The activation command of the final panel (`main.py` lines 663-670). -/
def activateCmd (isWindows : Bool) : String :=
  if isWindows then ".venv\\Scripts\\activate" else "source .venv/bin/activate"

/-- The command list of the final instruction panel (`main.py` lines
664-676): change directory, `uv sync` only when the sync step had not
succeeded, activate the environment, start the dev server. -/
def instructionCommands (projectLocation : String) (syncSuccess : Bool)
    (isWindows : Bool) : List String :=
  ["cd " ++ projectLocation]
    ++ (if syncSuccess then [] else ["uv sync"])
    ++ [activateCmd isWindows, "pywire dev"]

/-- Claim C5: when the dependency-sync subprocess exits non-zero after file
generation succeeded, the flow still reports file creation as successful,
prints a warning that includes the captured error output, continues to the
final panel, and the printed instructions include the explicit manual
`uv sync` command; when sync succeeded the instruction list is exactly the
three commands without it. -/
theorem syncFailure_warns_and_instructs (e projectLocation : String)
    (isWindows : Bool) :
    "OK Project structure created" ∈ postGenMessages (SyncOutcome.exitFail e)
      ∧ e ∈ postGenMessages (SyncOutcome.exitFail e)
      ∧ syncSuccessFlag (SyncOutcome.exitFail e) = false
      ∧ "uv sync" ∈ instructionCommands projectLocation
          (syncSuccessFlag (SyncOutcome.exitFail e)) isWindows
      ∧ instructionCommands projectLocation (syncSuccessFlag SyncOutcome.ok) isWindows
        = ["cd " ++ projectLocation, activateCmd isWindows, "pywire dev"] := by
  refine ⟨?_, ?_, rfl, ?_, rfl⟩ <;>
    simp [postGenMessages, syncMessages, instructionCommands, syncSuccessFlag]

/-- The choice list of the template prompt (`main.py` lines 510-522), as
(title, value) pairs in display order. -/
def kindChoices : List (String × String) :=
  [("Skeleton (minimal)", "skeleton"), ("Counter", "counter"),
   ("Blog/Portfolio (Markdown + SQLite)", "blog"),
   ("SaaS Starter (Stripe + SQLAlchemy + Auth Stub)", "saas")]

/-- The choice list of the routing prompt (`main.py` lines 525-535). -/
def routingChoices : List (String × String) :=
  [("Path-based", "path"), ("Explicit", "explicit")]

/-- The default of the destination prompt (`main.py` line 496). -/
def destinationDefault : String := "./my-pywire-app"

/-- The default of the template prompt (`main.py` line 520). -/
def kindDefault : String := "counter"

/-- The preselected value of the routing prompt: the select widget has no
`default` argument, so its first choice, path-based, is preselected
(`main.py` lines 525-535). -/
def routingDefault : String := "path"

/-- The default of the source-layout confirm prompt (`main.py` line 540). -/
def useSrcDefault : Bool := true

/-- The identifiers of the five prompts of `main()` in execution order
(`main.py` lines 494-549). -/
def promptOrder : List String :=
  ["destination", "template", "routing", "useSrc", "adapters"]

/-- The answers a run of the prompt flow produces; `none` for a prompt means
the user accepted the preselected default. -/
structure PromptAnswers where
  destination : Option String
  template : Option String
  routing : Option String
  useSrc : Option Bool
  adapters : Option (List String)
deriving DecidableEq

/-- The request assembled from the prompt answers, each prompt falling back
to its preselected default. -/
def collectRequest (a : PromptAnswers) :
    String × String × String × Bool × List String :=
  (a.destination.getD destinationDefault, a.template.getD kindDefault,
   a.routing.getD routingDefault, a.useSrc.getD useSrcDefault,
   a.adapters.getD [])

/-- Counterexample to claim C6 as stated: the destination default is
`./my-pywire-app`, not `./my-app`, and the default project kind is
`counter`, which is the second entry of the choice list, not the
first/most basic kind (`skeleton`). -/
theorem promptDefaults_differ_from_claim :
    destinationDefault ≠ "./my-app"
      ∧ kindChoices.head?.map Prod.snd = some "skeleton"
      ∧ kindDefault ≠ "skeleton" := by
  decide

/-- Claim C6 (amended): the prompts execute in the fixed order destination →
kind → routing → layout → adapters, and an all-defaults run yields
destination `./my-pywire-app`, project kind `counter` (the second entry of
the list, not the first), path-based routing, nested-source layout true, and
no adapters. -/
theorem promptFlow_order_and_defaults :
    promptOrder = ["destination", "template", "routing", "useSrc", "adapters"]
      ∧ collectRequest ⟨none, none, none, none, none⟩
        = ("./my-pywire-app", "counter", "path", true, [])
      ∧ kindChoices.map Prod.snd = ["skeleton", "counter", "blog", "saas"]
      ∧ routingChoices.head?.map Prod.snd = some routingDefault := by
  decide

/-- A file tree as an association list from path to text content, most
recent write first. -/
abbrev FileTree := List (FsPath × String)

/-- Read a file's text (`Path.read_text`); `none` when the file is absent. -/
def readFile? : FileTree → FsPath → Option String
  | [], _ => none
  | (q, t) :: rest, p => if q = p then some t else readFile? rest p

/-- Write text to a path, overwriting any previous content
(`Path.write_text`). -/
def writeFile (fs : FileTree) (p : FsPath) (t : String) : FileTree :=
  (p, t) :: fs

/-- `TemplateRenderer.copy_static` (`main.py` lines 105-109): read the static
template's text from the package's template directory —
`dest.write_text(source.read_text())` — and write that same text to the
destination; a missing source raises (modelled as `none`). -/
def copyStatic (templatesDir fs : FileTree) (src dest : FsPath) :
    Option FileTree :=
  match readFile? templatesDir src with
  | none => none
  | some t => some (writeFile fs dest t)

/-- Claim C8: for every copy operation that completes, the content stored at
the destination path afterwards equals the content of the source static
artifact — reading the destination back gives exactly what reading the
source template gives. -/
theorem copyStatic_round_trip (templatesDir fs : FileTree) (src dest : FsPath)
    (fs2 : FileTree) (h : copyStatic templatesDir fs src dest = some fs2) :
    readFile? fs2 dest = readFile? templatesDir src := by
  cases hr : readFile? templatesDir src with
  | none => simp [copyStatic, hr] at h
  | some t =>
    simp only [copyStatic, hr] at h
    cases h
    simp [readFile?, writeFile]

/-- Witness for C8 at a concrete input: copying the ignore file template. -/
theorem copyStatic_round_trip_witness :
    copyStatic [(["common", ".gitignore"], "pycache")] []
        ["common", ".gitignore"] [".gitignore"]
      = some [([".gitignore"], "pycache")]
      ∧ readFile? [([".gitignore"], "pycache")] [".gitignore"]
        = readFile? [(["common", ".gitignore"], "pycache")] ["common", ".gitignore"] :=
  ⟨rfl, copyStatic_round_trip _ _ _ _ _ rfl⟩

/-- The template identifier a step reads, when it reads one. -/
def stepTemplate : Step → Option String
  | .mkdirStep _ => none
  | .renderStep t _ _ => some t
  | .copyStep t _ => some t

/-- All template identifiers a generation run reads, in order. -/
def requiredTemplates (g : ProjectGenerator) : List String :=
  g.plan.filterMap stepTemplate

/-- If the sequential run of a step list succeeded, every individual step
succeeded (execution is strictly sequential and short-circuits on the first
failure). -/
theorem seqSteps_ok_all (cat : Catalog) (l : List Step)
    (h : isOkB (seqSteps cat l) = true) :
    ∀ s ∈ l, isOkB (runStep cat s) = true := by
  induction l with
  | nil => intro s hs; exact absurd hs (List.not_mem_nil s)
  | cons a rest ih =>
    intro s hs
    cases ha : runStep cat a with
    | error e => simp [seqSteps, ha, isOkB] at h
    | ok op =>
      cases hrest : seqSteps cat rest with
      | error e => simp [seqSteps, ha, hrest, isOkB] at h
      | ok ops =>
        rcases List.mem_cons.mp hs with rfl | hs2
        · simp [ha, isOkB]
        · exact ih (by simp [hrest, isOkB]) s hs2

/-- A step whose template identifier is missing from the catalog fails. -/
theorem runStep_missing (cat : Catalog) (s : Step) (t : String)
    (ht : stepTemplate s = some t) (hmiss : cat t = none) :
    isOkB (runStep cat s) = false := by
  cases s with
  | mkdirStep p => simp [stepTemplate] at ht
  | renderStep t2 ctx dest =>
    simp only [stepTemplate, Option.some.injEq] at ht
    subst ht
    simp [runStep, hmiss, isOkB]
  | copyStep t2 dest =>
    simp only [stepTemplate, Option.some.injEq] at ht
    subst ht
    simp [runStep, hmiss, isOkB]

/-- Claim C9: for every catalog, generator state and template identifier the
run requires, if that identifier is missing then generation fails — the
error raised by the renderer is not caught anywhere inside the generator, so
generation aborts and the missing template is never silently skipped. -/
theorem missing_template_aborts (cat : Catalog) (g : ProjectGenerator)
    (t : String) (hreq : t ∈ requiredTemplates g) (hmiss : cat t = none) :
    isOkB (generate cat g) = false := by
  cases hok : isOkB (generate cat g) with
  | false => rfl
  | true =>
    exfalso
    obtain ⟨s, hs, hst⟩ := List.mem_filterMap.mp hreq
    have hall := seqSteps_ok_all cat g.plan hok s hs
    rw [runStep_missing cat s t hst hmiss] at hall
    exact Bool.false_ne_true hall

/-- A catalog in which exactly the README template is missing. -/
def catMissingReadme : Catalog :=
  fun t => if t = "common/README.md.j2" then none else some ""

/-- Witness for C9 at a concrete input: a skeleton generation against a
catalog missing the README template fails. -/
theorem missing_template_aborts_witness :
    isOkB (generate catMissingReadme (genAt Kind.skeleton Routing.path true false false))
      = false :=
  missing_template_aborts catMissingReadme
    (genAt Kind.skeleton Routing.path true false false)
    "common/README.md.j2" (by decide) (by decide)

/-- Claim C10: when both deployment adapters are selected, generation writes
both the Dockerfile and the render.yaml at the project root, while the
manifest's deploy configuration records only the docker adapter; whenever
the Docker adapter is selected the configuration is the docker record
regardless of Render (Docker takes precedence), and when neither adapter is
selected the configuration is `none`. -/
theorem deploy_config_docker_precedence (k : Kind) (r : Routing) (s : Bool)
    (al : List String) :
    (genAt k r s true true).getDeployConfig = some [("adapter", "docker")]
      ∧ ["Dockerfile"] ∈ writesOf (generatedOps fullCat (genAt k r s true true))
      ∧ ["render.yaml"] ∈ writesOf (generatedOps fullCat (genAt k r s true true))
      ∧ (dockerChoice ∈ al →
          (ProjectGenerator.mk "n" k r s al "pywire").getDeployConfig
            = some [("adapter", "docker")])
      ∧ (dockerChoice ∉ al → renderChoice ∉ al →
          (ProjectGenerator.mk "n" k r s al "pywire").getDeployConfig = none) := by
  refine ⟨?_, ?_, ?_, ?_, ?_⟩
  · cases k <;> cases r <;> cases s <;> decide
  · cases k <;> cases r <;> cases s <;> decide
  · cases k <;> cases r <;> cases s <;> decide
  · intro hd
    simp [ProjectGenerator.getDeployConfig, hd]
  · intro hd hr
    simp [ProjectGenerator.getDeployConfig, hd, hr]

/-- Witness for C10 at concrete inputs: with both adapter strings selected
the configuration is the docker record; with no adapter selected it is
`none`. -/
theorem deploy_config_docker_precedence_witness :
    (ProjectGenerator.mk "n" Kind.skeleton Routing.path true
        [dockerChoice, renderChoice] "pywire").getDeployConfig
      = some [("adapter", "docker")]
      ∧ (ProjectGenerator.mk "n" Kind.skeleton Routing.path true
          [] "pywire").getDeployConfig = none :=
  ⟨(deploy_config_docker_precedence Kind.skeleton Routing.path true
      [dockerChoice, renderChoice]).2.2.2.1 (by decide),
   (deploy_config_docker_precedence Kind.skeleton Routing.path true
      []).2.2.2.2 (by decide) (by decide)⟩

end CreatePywireApp
